import Mathlib

/-!
Verification of the DSC Keybus push-notification example (esp8266 sketch) and
the KeybusReader diagnostic example, as a shallow embedding.

Embedded source functions:
- `sendPush` (Status sketch, lines 96-150): the hand-rolled HTTPS push client.
  The network is abstracted as a `Transport` value: whether `connect` succeeds,
  at which elapsed millisecond the first response byte becomes available during
  the response wait, and the response bytes readable afterwards.  Every
  `print`/`println` write is recorded as a chunk; `println` appends CRLF.
  The boolean results of the C code are refined to the spec's `DeliveryResult`
  by the exit path taken: connect failure, timeout, status digit 2, other.
- `loop` (Status sketch, lines 77-93): the status-change detector.  The panel
  interface collaborator's flags are a `DscState`; `dsc.handlePanel()`'s result
  is the `handled` argument; the dispatches and flag clears performed by one
  pass are recorded as a trace of `LoopAct`s.
- `setup` line 67: the startup notification text, `startupMessage`.
- `printTimestamp` (KeybusReader, lines 112-120): Arduino `Serial.print(x, 2)`
  rounds by adding 0.005 and truncating each printed digit; this is modelled
  with exact integer arithmetic on the millisecond count (the float detour of
  the source is modelled as exact real arithmetic, which agrees with the
  float computation on all inputs discussed here).
-/

/- ## Transport client (`sendPush`, Status sketch lines 96-150) -/

/-- The spec's delivery outcome enumeration (§3), as the refinement of the
return paths of `sendPush`. -/
inductive DeliveryResult where
  | Delivered
  | ConnectFailed
  | Timeout
  | RejectedByServer (digit : Char)
deriving DecidableEq

/-- Line 46: `const char* pushToken = "";`. -/
def pushToken : String := ""

/-- Line 110: the JSON envelope text before the payload. -/
def envPre : String := "\x7b\"body\":\""

/-- Line 112: the JSON envelope text after the payload. -/
def envSuf : String := "\",\"type\":\"note\"\x7d"

/-- `strlen` on a NUL-free string: its UTF-8 byte count. -/
def strBytes (s : String) : Nat := (s.data.map Char.utf8Size).sum

/-- Line 106: the declared Content-Length, `strlen(pushMessage) + 25`. -/
def contentLength (msg : String) : Nat := strBytes msg + 25

/-- Lines 100-112: every chunk written to the connection, one list entry per
`print`/`println` call, with `println` contributing a trailing CRLF. -/
def requestWrites (msg : String) : List String :=
  ["POST /v2/pushes HTTP/1.1\r\n",
   "Host: api.pushbullet.com\r\n",
   "User-Agent: ESP8266\r\n",
   "Accept: */*\r\n",
   "Content-Type: application/json\r\n",
   "Content-Length: ",
   toString (contentLength msg) ++ "\r\n",
   "Access-Token: ",
   pushToken ++ "\r\n",
   "\r\n",
   envPre,
   msg,
   envSuf]

/-- Lines 115-123: the response-wait loop.  One iteration per elapsed
millisecond (`delay(1)`); `avail e` tells whether a response byte is available
when `millis() - previousMillis = e`.  The fuel argument is a structural bound
only: started at 3002 with elapsed 0 it can never be exhausted, because the
`elapsed > 3000` timeout branch fires first. -/
def waitAux (avail : Nat → Bool) : Nat → Nat → Option Nat
  | _, 0 => none
  | elapsed, fuel + 1 =>
    if avail elapsed then some elapsed
    else if elapsed > 3000 then none
    else waitAux avail (elapsed + 1) fuel

/-- Lines 115-123: wait for the first response byte from the start of the wait;
`some e` means the first byte was seen at elapsed `e` ms, `none` the timeout
return at line 120. -/
def waitForByte (avail : Nat → Bool) : Option Nat := waitAux avail 0 3002

/-- Lines 126-128: consume response bytes until a space is read, returning the
bytes after that space (or nothing if the buffer ran out first). -/
def scanToSpace : List Char → List Char
  | [] => []
  | c :: rest => if c = ' ' then rest else scanToSpace rest

/-- Line 132: `pushClient.read()`.  On an empty buffer `read()` returns the
int -1, which stored into `char statusCode` becomes byte 0xFF. -/
def readChar : List Char → Char × List Char
  | [] => (Char.ofNat 0xFF, [])
  | c :: rest => (c, rest)

/-- Lines 136 and 145: the drain loops that read every remaining byte before
`stop()`, leaving an empty buffer. -/
def drainAll : List Char → List Char
  | [] => []
  | _ :: rest => drainAll rest

/-- The mock network behind one `sendPush` call: whether `connect` succeeds,
byte availability during the response wait, and the response bytes. -/
structure Transport where
  connectOk : Bool
  avail : Nat → Bool
  response : List Char

/-- Everything observable about one `sendPush` call: the classified result,
the chunks written, how many connections were opened and closed, how many
connect attempts were made, and the bytes left unread at `stop()`. -/
structure SendOutcome where
  result : DeliveryResult
  writes : List String
  opens : Nat
  closes : Nat
  connAttempts : Nat
  residue : List Char
deriving DecidableEq

/-- Lines 96-150: the whole of `sendPush`, over a mock `Transport`. -/
def sendPush (pushMessage : String) (t : Transport) : SendOutcome :=
  if t.connectOk then
    match waitForByte t.avail with
    | none =>
      { result := DeliveryResult.Timeout, writes := requestWrites pushMessage,
        opens := 1, closes := 1, connAttempts := 1, residue := [] }
    | some _ =>
      let rest := scanToSpace t.response
      let statusCode := (readChar rest).1
      let rest2 := (readChar rest).2
      if statusCode = '2' then
        { result := DeliveryResult.Delivered, writes := requestWrites pushMessage,
          opens := 1, closes := 1, connAttempts := 1, residue := drainAll rest2 }
      else
        { result := DeliveryResult.RejectedByServer statusCode,
          writes := requestWrites pushMessage,
          opens := 1, closes := 1, connAttempts := 1, residue := drainAll rest2 }
  else
    { result := DeliveryResult.ConnectFailed, writes := [],
      opens := 0, closes := 0, connAttempts := 1, residue := [] }

/-- Lines 126-128 under a server that keeps the connection readable forever:
the step-indexed header-skip loop.  `stream i` is the byte delivered by the
`i`-th `read()`; `scanSteps stream i fuel` is `some j` when the loop breaks at
the space read in step `j` within `fuel` iterations, `none` when `fuel`
iterations do not reach a space. -/
def scanSteps (stream : Nat → Char) : Nat → Nat → Option Nat
  | _, 0 => none
  | i, fuel + 1 => if stream i = ' ' then some i else scanSteps stream (i + 1) fuel

/- ## Status change detector (`loop`, Status sketch lines 77-93) -/

/-- The two notification topics of the sketch. -/
inductive Topic where
  | partitionAlarm
  | powerTrouble
deriving DecidableEq

/-- The panel-interface collaborator's flags read and cleared by `loop`:
`statusChanged`, and per topic the changed flag and current value. -/
structure DscState where
  statusChanged : Bool
  partitionAlarmChanged : Bool
  partitionAlarm : Bool
  powerTroubleChanged : Bool
  powerTrouble : Bool
deriving DecidableEq

/-- The observable steps of one `loop` pass: clearing the aggregate flag
(line 79), clearing a per-topic changed flag (lines 82, 88), and a `sendPush`
dispatch (lines 83-84, 89-90). -/
inductive LoopAct where
  | clearStatus
  | clearFlag (t : Topic)
  | dispatch (msg : String)
deriving DecidableEq

/-- Lines 77-93: one pass of `loop`.  `handled` is the value returned by
`dsc.handlePanel()`; the result is the flag state after the pass and the trace
of clears and dispatches it performed, in program order. -/
def loopStep (handled : Bool) (s : DscState) : DscState × List LoopAct :=
  if handled && s.statusChanged then
    let s1 : DscState :=
      ⟨false, s.partitionAlarmChanged, s.partitionAlarm,
       s.powerTroubleChanged, s.powerTrouble⟩
    let pa : DscState × List LoopAct :=
      if s1.partitionAlarmChanged then
        (⟨s1.statusChanged, false, s1.partitionAlarm,
          s1.powerTroubleChanged, s1.powerTrouble⟩,
         [LoopAct.clearFlag Topic.partitionAlarm,
          LoopAct.dispatch (if s1.partitionAlarm then "Security system in alarm"
                           else "Security system disarmed after alarm")])
      else (s1, [])
    let pt : DscState × List LoopAct :=
      if pa.1.powerTroubleChanged then
        (⟨pa.1.statusChanged, pa.1.partitionAlarmChanged, pa.1.partitionAlarm,
          false, pa.1.powerTrouble⟩,
         [LoopAct.clearFlag Topic.powerTrouble,
          LoopAct.dispatch (if pa.1.powerTrouble then "Security system AC power trouble"
                           else "Security system AC power restored")])
      else (pa.1, [])
    (pt.1, LoopAct.clearStatus :: (pa.2 ++ pt.2))
  else (s, [])

/-- Line 67: the synthetic startup notification text sent from `setup()`. -/
def startupMessage : String := "Security system initializing"

/-- Modelled from the spec: the §4.2 Notification Formatter table
`format(topic, newValue)`, written from the spec's words for comparison with
the message literals the source dispatches. -/
def formatSpec : Topic → Bool → String
  | Topic.partitionAlarm, true => "Security system in alarm"
  | Topic.partitionAlarm, false => "Security system disarmed after alarm"
  | Topic.powerTrouble, true => "Security system AC power trouble"
  | Topic.powerTrouble, false => "Security system AC power restored"

/-- Modelled from the spec: the §4.2 table's synthetic startup row. -/
def startupMessageSpec : String := "Security system initializing"

/- ## Diagnostic print pipeline (`printTimestamp`, KeybusReader lines 112-120) -/

/-- One decimal digit as a character, as printed by Arduino `Print`. -/
def digitChar : Nat → Char
  | 0 => '0'
  | 1 => '1'
  | 2 => '2'
  | 3 => '3'
  | 4 => '4'
  | 5 => '5'
  | 6 => '6'
  | 7 => '7'
  | 8 => '8'
  | _ => '9'

/-- Decimal rendering of a natural number, most significant digit first; the
fuel argument is a structural bound only, always sufficient when at least
`n + 1`. -/
def natDigitsGo : Nat → Nat → List Char
  | 0, _ => []
  | fuel + 1, n =>
    if n < 10 then [digitChar n]
    else natDigitsGo fuel (n / 10) ++ [digitChar (n % 10)]

/-- Decimal rendering of a natural number. -/
def natDigits (n : Nat) : List Char := natDigitsGo (n + 1) n

/-- Line 118, `Serial.print(timeStamp, 2)` for `timeStamp = ms / 1000.0`:
Arduino `Print::printFloat` adds a rounding term of 0.005 and then truncates
the integer part and each of the two decimal digits, i.e. it prints the digits
of `(ms + 5) / 10` hundredths, modelled with exact integer arithmetic. -/
def printFloat2 (ms : Nat) : List Char :=
  natDigits ((ms + 5) / 1000) ++
    '.' :: digitChar ((ms + 5) / 100 % 10) :: [digitChar ((ms + 5) / 10 % 10)]

/-- Lines 112-120: the full `printTimestamp` output for `millis() = ms`: the
space padding chosen by the `timeStamp < 10 / 100 / 1000 / 10000` comparisons
(exactly `ms < 10^4 / 10^5 / 10^6 / 10^7`), the two-decimal number, and the
trailing colon. -/
def printTimestamp (ms : Nat) : List Char :=
  (if ms < 10000 then [' ', ' ', ' ', ' ']
   else if ms < 100000 then [' ', ' ', ' ']
   else if ms < 1000000 then [' ', ' ']
   else if ms < 10000000 then [' ']
   else []) ++ printFloat2 ms ++ [':']

/-- The characters of a line strictly before its first `'.'`. -/
def beforeDot : List Char → List Char
  | [] => []
  | c :: rest => if c = '.' then [] else c :: beforeDot rest

/- ## Concrete mock inputs used by witnesses -/

/-- A transport whose server never sends a byte. -/
def silentTransport : Transport := ⟨true, fun _ => false, []⟩

/-- A transport whose first response byte arrives at elapsed 2999 ms. -/
def lateTransport : Transport := ⟨true, fun e => decide (2999 ≤ e), "HTTP/1.1 200 OK".data⟩

/-- A transport that responds immediately with the given bytes. -/
def respTransport (resp : List Char) : Transport := ⟨true, fun _ => true, resp⟩

/-- A transport whose `connect` fails. -/
def deadTransport : Transport := ⟨false, fun _ => false, []⟩

/-- A flag state: new status, partition alarm newly active. -/
def alarmState : DscState := ⟨true, true, true, false, false⟩

/-- A flag state: new status, AC power trouble newly active. -/
def troubleState : DscState := ⟨true, false, false, true, true⟩

/-- A flag state: valid frame handled but no status change. -/
def quietState : DscState := ⟨false, true, true, true, true⟩

/- ## Helper lemmas -/

theorem strBytes_append (a b : String) : strBytes (a ++ b) = strBytes a + strBytes b := by
  simp [strBytes, String.data_append]

theorem drainAll_eq_nil (l : List Char) : drainAll l = [] := by
  induction l with
  | nil => rfl
  | cons c rest ih => simpa [drainAll] using ih

theorem scanToSpace_append (pre tail : List Char) (h : ' ' ∉ pre) :
    scanToSpace (pre ++ ' ' :: tail) = tail := by
  induction pre with
  | nil => simp [scanToSpace]
  | cons c rest ih =>
    have hc : c ≠ ' ' := fun hc => h (hc ▸ List.mem_cons_self c rest)
    have hrest : ' ' ∉ rest := fun hr => h (List.mem_cons_of_mem c hr)
    simp [scanToSpace, hc, ih hrest]

theorem waitAux_none (av : Nat → Bool) (hav : ∀ e, e ≤ 3001 → av e = false) :
    ∀ fuel elapsed, elapsed ≤ 3001 → waitAux av elapsed fuel = none := by
  intro fuel
  induction fuel with
  | zero => intro elapsed _; rfl
  | succ f ih =>
    intro elapsed he
    rw [waitAux, hav elapsed he]
    rcases Nat.lt_or_ge 3000 elapsed with h | h
    · simp [h]
    · simpa [Nat.not_lt.mpr h] using ih (elapsed + 1) (by omega)

theorem waitAux_some (av : Nat → Bool) (k : Nat) (hk : av k = true)
    (hbefore : ∀ e, e < k → av e = false) (hk3001 : k ≤ 3001) :
    ∀ fuel elapsed, elapsed ≤ k → k < elapsed + fuel →
      waitAux av elapsed fuel = some k := by
  intro fuel
  induction fuel with
  | zero => intro elapsed h1 h2; omega
  | succ f ih =>
    intro elapsed h1 h2
    rcases Nat.eq_or_lt_of_le h1 with heq | hlt
    · rw [waitAux, heq, hk]; simp
    · rw [waitAux, hbefore elapsed hlt]
      have h3 : ¬ elapsed > 3000 := by omega
      simpa [h3] using ih (elapsed + 1) (by omega) (by omega)

/- ## Claim theorems -/

/-- C1 (counterexample): the payload "Security system in alarm" is 24 bytes,
so the Content-Length computed at line 106 is 49, not the 50 the claim
states. -/
theorem contentLength_alarm_not_50 :
    contentLength "Security system in alarm" ≠ 50 ∧
      contentLength "Security system in alarm" = 49 := by
  constructor <;> decide

/-- C1 (amended): for the payload "Security system in alarm" the computed
Content-Length is 49 (24 payload bytes plus the 25-byte envelope overhead),
and for every payload the declared Content-Length equals the exact number of
body bytes subsequently written (the envelope text before the payload, the
payload, and the envelope text after it). -/
theorem contentLength_matches_body :
    contentLength "Security system in alarm" = 49 ∧
      ∀ msg : String, strBytes (envPre ++ msg ++ envSuf) = contentLength msg := by
  constructor
  · decide
  · intro msg
    have h1 : strBytes envPre = 9 := by decide
    have h2 : strBytes envSuf = 16 := by decide
    rw [strBytes_append, strBytes_append, h1, h2, contentLength]
    omega

/-- C8: on a response stream that stays readable but never contains a space,
the header-skip loop of lines 126-128 never reaches its exit: no iteration
bound suffices, so the scan does not terminate with a result. -/
theorem scanSteps_unbounded_without_space :
    ∃ stream : Nat → Char, (∀ i, stream i ≠ ' ') ∧
      ∀ fuel i, scanSteps stream i fuel = none := by
  refine ⟨fun _ => 'X', ?_, ?_⟩
  · intro i
    show 'X' ≠ ' '
    decide
  intro fuel
  induction fuel with
  | zero => intro i; rfl
  | succ f ih =>
    intro i
    rw [scanSteps]
    simpa using ih (i + 1)

/-- C4: running the detector twice with no intervening new valid frame
performs zero dispatches the second time.  First conjunct: with no new frame
(`handlePanel` false) the second pass does nothing.  Second conjunct: even if
`handlePanel` reports true again, a first pass with a valid frame leaves
`statusChanged` cleared, so the second pass does nothing.  Third and fourth
conjuncts: a pass that observes a set changed flag clears it before the
dispatch for that topic (the clear precedes the dispatch in the trace). -/
theorem detector_second_run_no_dispatch :
    (∀ (s : DscState) (h1 : Bool),
       loopStep false ((loopStep h1 s).1) = (((loopStep h1 s).1), []))
    ∧ (∀ s : DscState,
       loopStep true ((loopStep true s).1) = (((loopStep true s).1), []))
    ∧ (∀ s : DscState, s.statusChanged = true → s.partitionAlarmChanged = true →
        s.powerTroubleChanged = false →
        (loopStep true s).2 =
          [LoopAct.clearStatus, LoopAct.clearFlag Topic.partitionAlarm,
           LoopAct.dispatch (if s.partitionAlarm then "Security system in alarm"
                             else "Security system disarmed after alarm")])
    ∧ (∀ s : DscState, s.statusChanged = true → s.partitionAlarmChanged = false →
        s.powerTroubleChanged = true →
        (loopStep true s).2 =
          [LoopAct.clearStatus, LoopAct.clearFlag Topic.powerTrouble,
           LoopAct.dispatch (if s.powerTrouble then "Security system AC power trouble"
                             else "Security system AC power restored")]) := by
  refine ⟨?_, ?_, ?_, ?_⟩
  · rintro ⟨a, b, c, d, e⟩ h1
    cases h1 <;> cases a <;> cases b <;> cases c <;> cases d <;> cases e <;> rfl
  · rintro ⟨a, b, c, d, e⟩
    cases a <;> cases b <;> cases c <;> cases d <;> cases e <;> rfl
  · rintro ⟨a, b, c, d, e⟩
    cases a <;> cases b <;> cases c <;> cases d <;> cases e <;> decide
  · rintro ⟨a, b, c, d, e⟩
    cases a <;> cases b <;> cases c <;> cases d <;> cases e <;> decide

/-- C4 (witness): at the concrete alarm state, the pass clears the partition
alarm flag before dispatching its message. -/
theorem detector_second_run_no_dispatch_witness :
    (loopStep true alarmState).2 =
      [LoopAct.clearStatus, LoopAct.clearFlag Topic.partitionAlarm,
       LoopAct.dispatch (if alarmState.partitionAlarm then "Security system in alarm"
                         else "Security system disarmed after alarm")] :=
  detector_second_run_no_dispatch.2.2.1 alarmState rfl rfl rfl

/-- C5: the dispatched notification text agrees with the §4.2 formatter table
(`formatSpec`, written from the spec) on every topic/value pair, and the
startup notification of `setup()` is the table's synthetic startup row; the
table function itself is a total pure Lean function. -/
theorem loop_dispatch_matches_formatSpec :
    (∀ s : DscState, s.statusChanged = true → s.partitionAlarmChanged = true →
        LoopAct.dispatch (formatSpec Topic.partitionAlarm s.partitionAlarm)
          ∈ (loopStep true s).2)
    ∧ (∀ s : DscState, s.statusChanged = true → s.powerTroubleChanged = true →
        LoopAct.dispatch (formatSpec Topic.powerTrouble s.powerTrouble)
          ∈ (loopStep true s).2)
    ∧ startupMessage = startupMessageSpec := by
  refine ⟨?_, ?_, rfl⟩
  · rintro ⟨a, b, c, d, e⟩
    cases a <;> cases b <;> cases c <;> cases d <;> cases e <;> decide
  · rintro ⟨a, b, c, d, e⟩
    cases a <;> cases b <;> cases c <;> cases d <;> cases e <;> decide

/-- C5 (witness): at the concrete power-trouble state, the dispatched message
is the table's entry for (powerTrouble, true). -/
theorem loop_dispatch_matches_formatSpec_witness :
    LoopAct.dispatch (formatSpec Topic.powerTrouble troubleState.powerTrouble)
      ∈ (loopStep true troubleState).2 :=
  loop_dispatch_matches_formatSpec.2.1 troubleState rfl rfl

/-- C10: the detector gates all per-topic processing on the aggregate
`statusChanged` flag: when a valid frame was handled but `statusChanged` is
false, the pass dispatches nothing and leaves every flag unchanged; when
`statusChanged` is true it is cleared first — the clear is the first trace
action and the post-state flag is false. -/
theorem statusChanged_gate :
    (∀ s : DscState, s.statusChanged = false → loopStep true s = (s, []))
    ∧ (∀ s : DscState, s.statusChanged = true →
        ((loopStep true s).1).statusChanged = false ∧
          ((loopStep true s).2).head? = some LoopAct.clearStatus) := by
  constructor
  · rintro ⟨a, b, c, d, e⟩
    cases a <;> cases b <;> cases c <;> cases d <;> cases e <;> decide
  · rintro ⟨a, b, c, d, e⟩
    cases a <;> cases b <;> cases c <;> cases d <;> cases e <;> decide

/-- C10 (witness): at the concrete handled-but-no-status-change state, the
pass is a no-op. -/
theorem statusChanged_gate_witness :
    loopStep true quietState = (quietState, []) :=
  statusChanged_gate.1 quietState rfl

/-- C6: if `connect` at line 99 fails, `sendPush` returns the ConnectFailed
result at once: exactly one connect attempt, no connection opened, and not a
single byte written. -/
theorem sendPush_connect_failed :
    ∀ (msg : String) (t : Transport), t.connectOk = false →
      (sendPush msg t).result = DeliveryResult.ConnectFailed ∧
        (sendPush msg t).writes = [] ∧
        (sendPush msg t).opens = 0 ∧
        (sendPush msg t).connAttempts = 1 := by
  intro msg t h
  simp [sendPush, h]

/-- C6 (witness): the connect-refusing transport yields ConnectFailed with no
writes. -/
theorem sendPush_connect_failed_witness :
    (sendPush "m" deadTransport).result = DeliveryResult.ConnectFailed ∧
      (sendPush "m" deadTransport).writes = [] ∧
      (sendPush "m" deadTransport).opens = 0 ∧
      (sendPush "m" deadTransport).connAttempts = 1 :=
  sendPush_connect_failed "m" deadTransport rfl

/-- C7: every `sendPush` call makes exactly one connect attempt, opens at most
one connection, and closes exactly as many connections as it opened — on the
success, timeout, rejection and connect-failure exit paths alike.  (Each call
takes its own fresh `Transport`, so no connection is reused across calls.) -/
theorem sendPush_single_connection :
    ∀ (msg : String) (t : Transport),
      (sendPush msg t).opens ≤ 1 ∧
        (sendPush msg t).closes = (sendPush msg t).opens ∧
        (sendPush msg t).connAttempts = 1 := by
  intro msg t
  cases hc : t.connectOk
  · simp [sendPush, hc]
  · cases hw : waitForByte t.avail
    · simp [sendPush, hc, hw]
    · simp only [sendPush, hc, hw, if_true]
      split <;> simp

/-- C2: after the request is written, the wait for the first response byte is
bounded by the 3000 ms wall-clock deadline of line 117: if no byte has become
available by 3001 ms elapsed the call returns Timeout and closes the
connection, while a first byte arriving at 2999 ms elapsed never produces
Timeout. -/
theorem sendPush_timeout_boundary :
    (∀ (msg : String) (t : Transport), t.connectOk = true →
      (∀ e, e ≤ 3001 → t.avail e = false) →
      (sendPush msg t).result = DeliveryResult.Timeout ∧
        (sendPush msg t).opens = 1 ∧ (sendPush msg t).closes = 1)
    ∧ (∀ msg : String,
        (sendPush msg lateTransport).result ≠ DeliveryResult.Timeout) := by
  constructor
  · intro msg t hconn hav
    have hw : waitForByte t.avail = none := waitAux_none t.avail hav 3002 0 (by omega)
    simp [sendPush, hconn, hw]
  · intro msg
    have hw : waitForByte lateTransport.avail = some 2999 := by
      refine waitAux_some _ 2999 (by decide) ?_ (by omega) 3002 0 (by omega) (by omega)
      intro e he
      exact decide_eq_false_iff_not.mpr (by omega)
    have hc : lateTransport.connectOk = true := rfl
    simp only [sendPush, hc, hw, if_true]
    split <;> simp

/-- C2 (witness): the byte-withholding transport times out and the connection
is closed. -/
theorem sendPush_timeout_boundary_witness :
    (sendPush "m" silentTransport).result = DeliveryResult.Timeout ∧
      (sendPush "m" silentTransport).opens = 1 ∧
      (sendPush "m" silentTransport).closes = 1 :=
  sendPush_timeout_boundary.1 "m" silentTransport rfl (fun _ _ => rfl)

/-- C3: the response is classified by the first character after the first
space of the status line: '2' gives Delivered with the remaining bytes drained
before closing, any other character `d` gives RejectedByServer `d`; in
particular the four status lines of the spec classify as stated. -/
theorem sendPush_status_classification :
    (∀ (msg : String) (pre : List Char) (d : Char) (rest : List Char),
      ' ' ∉ pre →
      (sendPush msg (respTransport (pre ++ ' ' :: d :: rest))).result =
        (if d = '2' then DeliveryResult.Delivered
         else DeliveryResult.RejectedByServer d) ∧
      (sendPush msg (respTransport (pre ++ ' ' :: d :: rest))).residue = [])
    ∧ (sendPush "m" (respTransport "HTTP/1.1 200 OK".data)).result =
        DeliveryResult.Delivered
    ∧ (sendPush "m" (respTransport "HTTP/1.1 204 No Content".data)).result =
        DeliveryResult.Delivered
    ∧ (sendPush "m" (respTransport "HTTP/1.1 401 Unauthorized".data)).result =
        DeliveryResult.RejectedByServer '4'
    ∧ (sendPush "m" (respTransport "HTTP/1.1 500 Internal Server Error".data)).result =
        DeliveryResult.RejectedByServer '5' := by
  refine ⟨?_, by decide, by decide, by decide, by decide⟩
  intro msg pre d rest hpre
  have hscan : scanToSpace (pre ++ ' ' :: d :: rest) = d :: rest :=
    scanToSpace_append pre (d :: rest) hpre
  have hw : waitForByte (fun _ => true) = some 0 := rfl
  by_cases hd : d = '2'
  · subst hd
    constructor
    · simp [sendPush, respTransport, hw, hscan, readChar]
    · simp [sendPush, respTransport, hw, hscan, readChar, drainAll_eq_nil]
  · constructor
    · simp [sendPush, respTransport, hw, hscan, readChar, hd]
    · simp [sendPush, respTransport, hw, hscan, readChar, hd, drainAll_eq_nil]

/-- C3 (witness): a minimal response with status digit 4 after the space is
rejected with that digit, leaving no residue. -/
theorem sendPush_status_classification_witness :
    (sendPush "m" (respTransport ([] ++ ' ' :: '4' :: []))).result =
      (if '4' = '2' then DeliveryResult.Delivered
       else DeliveryResult.RejectedByServer '4') ∧
      (sendPush "m" (respTransport ([] ++ ' ' :: '4' :: []))).residue = [] :=
  sendPush_status_classification.1 "m" [] '4' [] (by decide)

/- ## Timestamp lemmas -/

theorem digitChar_ne_dot : ∀ n : Nat, digitChar n ≠ '.'
  | 0 => by decide
  | 1 => by decide
  | 2 => by decide
  | 3 => by decide
  | 4 => by decide
  | 5 => by decide
  | 6 => by decide
  | 7 => by decide
  | 8 => by decide
  | _ + 9 => (by decide : ('9' : Char) ≠ '.')

theorem natDigitsGo_no_dot : ∀ fuel n, '.' ∉ natDigitsGo fuel n := by
  intro fuel
  induction fuel with
  | zero => intro n; simp [natDigitsGo]
  | succ f ih =>
    intro n
    rw [natDigitsGo]
    split
    · intro hmem
      simp at hmem
      exact digitChar_ne_dot n hmem.symm
    · intro hmem
      rcases List.mem_append.mp hmem with h | h
      · exact ih (n / 10) h
      · simp at h
        exact digitChar_ne_dot (n % 10) h.symm

theorem natDigitsGo_len1 : ∀ fuel n, n < fuel → n < 10 →
    (natDigitsGo fuel n).length = 1 := by
  intro fuel n hf h10
  match fuel with
  | 0 => omega
  | f + 1 => rw [natDigitsGo, if_pos h10]; rfl

theorem natDigitsGo_len2 : ∀ fuel n, n < fuel → 10 ≤ n → n < 100 →
    (natDigitsGo fuel n).length = 2 := by
  intro fuel n hf hlo hhi
  match fuel with
  | 0 => omega
  | f + 1 =>
    rw [natDigitsGo, if_neg (by omega), List.length_append,
      natDigitsGo_len1 f (n / 10) (by omega) (by omega)]
    rfl

theorem natDigitsGo_len3 : ∀ fuel n, n < fuel → 100 ≤ n → n < 1000 →
    (natDigitsGo fuel n).length = 3 := by
  intro fuel n hf hlo hhi
  match fuel with
  | 0 => omega
  | f + 1 =>
    rw [natDigitsGo, if_neg (by omega), List.length_append,
      natDigitsGo_len2 f (n / 10) (by omega) (by omega) (by omega)]
    rfl

theorem natDigitsGo_len4 : ∀ fuel n, n < fuel → 1000 ≤ n → n < 10000 →
    (natDigitsGo fuel n).length = 4 := by
  intro fuel n hf hlo hhi
  match fuel with
  | 0 => omega
  | f + 1 =>
    rw [natDigitsGo, if_neg (by omega), List.length_append,
      natDigitsGo_len3 f (n / 10) (by omega) (by omega) (by omega)]
    rfl

theorem natDigitsGo_len5 : ∀ fuel n, n < fuel → 10000 ≤ n → n < 100000 →
    (natDigitsGo fuel n).length = 5 := by
  intro fuel n hf hlo hhi
  match fuel with
  | 0 => omega
  | f + 1 =>
    rw [natDigitsGo, if_neg (by omega), List.length_append,
      natDigitsGo_len4 f (n / 10) (by omega) (by omega) (by omega)]
    rfl

theorem beforeDot_eq (l1 l2 : List Char) (h : '.' ∉ l1) :
    beforeDot (l1 ++ '.' :: l2) = l1 := by
  induction l1 with
  | nil => simp [beforeDot]
  | cons c rest ih =>
    have hc : c ≠ '.' := fun hc => h (by simp [hc])
    have hrest : '.' ∉ rest := fun hr => h (List.mem_cons_of_mem c hr)
    simp [beforeDot, hc, ih hrest]

theorem beforeDot_printTimestamp (ms : Nat) :
    beforeDot (printTimestamp ms) =
      (if ms < 10000 then [' ', ' ', ' ', ' ']
       else if ms < 100000 then [' ', ' ', ' ']
       else if ms < 1000000 then [' ', ' ']
       else if ms < 10000000 then [' ']
       else []) ++ natDigits ((ms + 5) / 1000) := by
  have hpad : '.' ∉ (if ms < 10000 then [' ', ' ', ' ', ' ']
       else if ms < 100000 then [' ', ' ', ' ']
       else if ms < 1000000 then [' ', ' ']
       else if ms < 10000000 then [' ']
       else ([] : List Char)) := by
    split
    · decide
    · split
      · decide
      · split
        · decide
        · split
          · decide
          · decide
  have hq : '.' ∉ natDigits ((ms + 5) / 1000) := natDigitsGo_no_dot _ _
  have hmem : '.' ∉ ((if ms < 10000 then [' ', ' ', ' ', ' ']
       else if ms < 100000 then [' ', ' ', ' ']
       else if ms < 1000000 then [' ', ' ']
       else if ms < 10000000 then [' ']
       else []) ++ natDigits ((ms + 5) / 1000)) := by
    intro h
    rcases List.mem_append.mp h with h | h
    · exact hpad h
    · exact hq h
  have hshape : printTimestamp ms =
      ((if ms < 10000 then [' ', ' ', ' ', ' ']
       else if ms < 100000 then [' ', ' ', ' ']
       else if ms < 1000000 then [' ', ' ']
       else if ms < 10000000 then [' ']
       else []) ++ natDigits ((ms + 5) / 1000)) ++
        '.' :: (digitChar ((ms + 5) / 100 % 10) ::
          [digitChar ((ms + 5) / 10 % 10)] ++ [':']) := by
    simp [printTimestamp, printFloat2, List.append_assoc]
  rw [hshape, beforeDot_eq _ _ hmem]

/-- C9 (counterexample): at `millis() = 9999` the elapsed time 9.999 s has a
one-digit integer part, so the claim requires a field width of 5; but
`Serial.print(timeStamp, 2)` rounds 9.999 up to "10.00" after the four-space
padding branch for values below 10 was already chosen, so the digits before
the decimal point occupy 6 characters. -/
theorem printTimestamp_width_not_five_at_9999 :
    9999 / 1000 < 100000 ∧
      (beforeDot (printTimestamp 9999)).length = 6 ∧
      (beforeDot (printTimestamp 9999)).length ≠ 5 := by
  refine ⟨by decide, by decide, by decide⟩

/-- C9 (amended): every line emitted by the diagnostic pipeline begins with
the elapsed-seconds timestamp at two-decimal precision, space-padded so the
characters before the decimal point occupy exactly 5 columns, and the
timestamp ends with a colon — for every elapsed time whose integer part has
at most 5 digits after two-decimal rounding and whose rounding (adding 5 ms)
does not carry the value across one of the padding thresholds 10^4..10^7 ms. -/
theorem printTimestamp_width_five :
    ∀ ms : Nat, ms + 5 < 100000000 →
      (ms < 10000 → ms + 5 < 10000) →
      (ms < 100000 → ms + 5 < 100000) →
      (ms < 1000000 → ms + 5 < 1000000) →
      (ms < 10000000 → ms + 5 < 10000000) →
      (beforeDot (printTimestamp ms)).length = 5 ∧
        ∃ front, printTimestamp ms = front ++ [':'] := by
  intro ms h8 g1 g2 g3 g4
  constructor
  · rw [beforeDot_printTimestamp, List.length_append]
    by_cases h1 : ms < 10000
    · rw [if_pos h1]
      simp only [natDigits]
      rw [natDigitsGo_len1 _ _ (by omega) (by omega)]
      rfl
    · rw [if_neg h1]
      by_cases h2 : ms < 100000
      · rw [if_pos h2]
        simp only [natDigits]
        rw [natDigitsGo_len2 _ _ (by omega) (by omega) (by omega)]
        rfl
      · rw [if_neg h2]
        by_cases h3 : ms < 1000000
        · rw [if_pos h3]
          simp only [natDigits]
          rw [natDigitsGo_len3 _ _ (by omega) (by omega) (by omega)]
          rfl
        · rw [if_neg h3]
          by_cases h4 : ms < 10000000
          · rw [if_pos h4]
            simp only [natDigits]
            rw [natDigitsGo_len4 _ _ (by omega) (by omega) (by omega)]
            rfl
          · rw [if_neg h4]
            simp only [natDigits]
            rw [natDigitsGo_len5 _ _ (by omega) (by omega) (by omega)]
            rfl
  · refine ⟨(if ms < 10000 then [' ', ' ', ' ', ' ']
       else if ms < 100000 then [' ', ' ', ' ']
       else if ms < 1000000 then [' ', ' ']
       else if ms < 10000000 then [' ']
       else []) ++ printFloat2 ms, ?_⟩
    simp [printTimestamp, List.append_assoc]

/-- C9 (witness): at 123.456 s elapsed the field before the decimal point is
exactly 5 characters wide and the timestamp ends with a colon. -/
theorem printTimestamp_width_five_witness :
    (beforeDot (printTimestamp 123456)).length = 5 ∧
      ∃ front, printTimestamp 123456 = front ++ [':'] :=
  printTimestamp_width_five 123456 (by decide) (by decide) (by decide)
    (by decide) (by decide)
